import Mathlib

/-!
Verification of the contact-form submission pipeline of ckanext-contact
(`ckanext/contact/routes/_helpers.py`).

The pipeline is shallowly embedded: the inbound form data (`data_dict`) is a
record of optional string fields (absent key = `none`, present key = `some v`),
configuration is a string-keyed lookup returning `Option String`, and the
external collaborators (CAPTCHA checker, dataset lookup, template renderer,
plugin hooks, mailer) are explicit function parameters.  Python exceptions that
the code can raise past a boundary are modelled with `Except PyExn`; the
wall-clock timestamp is an explicit `now : String` parameter.
-/

/-- Exceptions the embedded code can raise: an unguarded dict index
(`KeyError`), a failing dataset lookup (`ObjectNotFound` from
`package_show`), and `ValueError` from `asbool` on an unrecognised string. -/
inductive PyExn where
  | keyError (key : String)
  | objectNotFound (id : String)
  | valueError (msg : String)
deriving Repr, DecidableEq

/-- The request parameters (`data_dict`) restricted to the keys the code
reads or writes.  `none` models a key that is absent from the dict, `some v`
a key present with string value `v`.  The hyphenated Python keys `pkg-url`,
`pkg-id` and `g-recaptcha-response` are spelt with underscores. -/
structure Submission where
  email : Option String := none
  name : Option String := none
  content : Option String := none
  form_variant : Option String := none
  contact_type : Option String := none
  pkg_url : Option String := none
  pkg_id : Option String := none
  resource : Option String := none
  maintainer : Option String := none
  url : Option String := none
  contact_dest : Option String := none
  g_recaptcha_response : Option String := none
deriving Repr, DecidableEq

/-- `data_dict.get(field, None)` / `data_dict[field]` for the keys used by
`validate` (source lines 38-42). -/
def Submission.get (d : Submission) : String → Option String
  | "email" => d.email
  | "name" => d.name
  | "content" => d.content
  | "form_variant" => d.form_variant
  | "contact_type" => d.contact_type
  | "pkg-url" => d.pkg_url
  | "pkg-id" => d.pkg_id
  | "resource" => d.resource
  | "maintainer" => d.maintainer
  | "url" => d.url
  | "contact_dest" => d.contact_dest
  | "g-recaptcha-response" => d.g_recaptcha_response
  | _ => none

/-- The site configuration: a key-to-string lookup (`toolkit.config.get`
returns the value, or the supplied default when the key is unset). -/
abbrev Config := String → Option String

/-- The dataset record returned by the `package_show` action; the code only
reads its `data_contact_email` field (source line 173). -/
structure Pkg where
  data_contact_email : Option String := none
deriving Repr, DecidableEq

/-- The named values handed to `render_template` for the HTML body
(source lines 145-160). -/
structure RenderArgs where
  name : String
  email : String
  contact_type : String
  resource : String
  maintainer : String
  url : String
  pkg_url : String
  message : String
  timestamp : String
  site_title : Option String
  site_url : String
  subject : String
deriving Repr, DecidableEq

/-- The `mail_dict` assembled by `submit` (source lines 137-166).  Header
values are `Option String` because `headers["cc"]` is assigned the default
recipient, which is itself an optional configuration value. -/
structure MailDict where
  recipient_email : Option String
  recipient_name : Option String
  subject : String
  body : String
  body_html : String
  headers : List (String × Option String)
deriving Repr, DecidableEq

/-- Outcome of the single `mailer.mail_recipient` call: success, or one of
the two exception classes caught at source line 183 (`mailer.MailerException`
and `socket.error`). -/
inductive MailResult where
  | ok
  | mailerException
  | socketError
deriving Repr, DecidableEq

/-- The dict returned by `submit` (source lines 186-192). -/
structure Outcome where
  success : Bool
  data : Submission
  errors : List (String × List String)
  error_summary : List (String × String)
  recaptcha_error : Option String
deriving Repr, DecidableEq

/-- Python truthiness of `pkg["data_contact_email"]` (source line 173):
an absent/None value and the empty string are falsy. -/
def pyTruthy : Option String → Bool
  | none => false
  | some s => s != ""

/-- The test of source line 40 (value is None or the empty string) and the
`not in data_dict or == ""` tests of lines 104-120. -/
def missingOrEmpty : Option String → Bool
  | none => true
  | some s => s == ""

/-- The required fields found missing by the loop at source lines 38-42,
in loop order. -/
def missingFields (d : Submission) : List String :=
  ["email", "name", "content"].filter fun f => missingOrEmpty (d.get f)

/-- `validate(data_dict)` (source lines 25-54): returns the triple of
`errors`, `error_summary` and `recaptcha_error`.  The CAPTCHA collaborator
`captcha` receives the `g-recaptcha-response` token and the configured
expected action, and returns `some reason` when `recaptcha.check_recaptcha`
raises `RecaptchaError(reason)`, `none` on success. -/
def validate (cfg : Config) (captcha : Option String → Option String → Option String)
    (d : Submission) :
    List (String × List String) × List (String × String) × Option String :=
  let miss := missingFields d
  let errors := miss.map fun f => (f, ["Missing Value"])
  let error_summary := miss.map fun f => (f, "Missing value")
  let recaptcha_error :=
    if errors.isEmpty then
      match captcha d.g_recaptcha_response (cfg "ckanext.contact.recaptcha_v3_action") with
      | some _ => some "Recaptcha check failed, please try again."
      | none => none
    else none
  (errors, error_summary, recaptcha_error)

/-- Model of `ckan.common.asbool` (an external CKAN helper): strips and
lowercases the string, maps the six truthy words to `true` and the six falsy
words to `false`, and raises `ValueError` (here `none`) otherwise. -/
def asbool (s : String) : Option Bool :=
  let t := s.trim.toLower
  if ["true", "yes", "on", "y", "t", "1"].contains t then some true
  else if ["false", "no", "off", "n", "f", "0"].contains t then some false
  else none

/-- The timestamp toggle of source line 68:
asbool applied to the lookup of `ckanext.contact.add_timestamp_to_subject`
with default `timestamp_default`.  When the key is unset the boolean default is passed
through `asbool` unchanged; `none` models the `ValueError` raised by `asbool`
on an unrecognised configured string. -/
def resolveTimestampFlag (cfg : Config) (timestamp_default : Bool) : Option Bool :=
  match cfg "ckanext.contact.add_timestamp_to_subject" with
  | some s => asbool s
  | none => some timestamp_default

/-- `build_subject` (source lines 57-71).  `now` is the formatted UTC
wall-clock string of line 69.  `toolkit._` (localisation) is the identity.
Returns `none` when `asbool` raises on the configured timestamp flag. -/
def build_subject (cfg : Config) (now : String)
    (form_variant contact_type subject_default : String)
    (timestamp_default : Bool) : Option String :=
  let subject := (cfg ("ckanext." ++ form_variant ++ ".subject")).getD subject_default
  let subject := if form_variant = "contact" then subject ++ " : " ++ contact_type else subject
  match resolveTimestampFlag cfg timestamp_default with
  | none => none
  | some b => some (if b then subject ++ " [" ++ now ++ "]" else subject)

/-- Per-character translation of `markupsafe.escape` (source line 155). -/
def escapeChar : Char → String
  | '&' => "&amp;"
  | '<' => "&lt;"
  | '>' => "&gt;"
  | '\'' => "&#39;"
  | '"' => "&#34;"
  | c => String.singleton c

/-- Model of `markupsafe.escape` applied to the message body. -/
def escape (s : String) : String :=
  String.join (s.data.map escapeChar)

/-- Source lines 103-107: append a Dataset URL body line when `pkg-url` is
present and non-empty, otherwise store `""` under `pkg-url`. -/
def pkgUrlStep (d : Submission) (body_parts : List String) :
    List String × Submission :=
  match d.pkg_url with
  | some u =>
      if u != "" then (body_parts ++ ["  Dataset URL: " ++ u], d)
      else (body_parts, { d with pkg_url := some "" })
  | none => (body_parts, { d with pkg_url := some "" })

/-- Source lines 109-111: default a missing/empty `contact_type` to
"Question" and, only in that case, append a Contact Type body line. -/
def contactTypeStep (d : Submission) (body_parts : List String) :
    List String × Submission :=
  if missingOrEmpty d.contact_type then
    (body_parts ++ ["  Contact Type: Question"], { d with contact_type := some "Question" })
  else (body_parts, d)

/-- Source lines 113-135: the branch on `form_variant`.  For
`suggest_dataset`, default `resource`, `maintainer`, `url` to "N/A" when
missing/empty, rewrite a `contact_type` of "Both" to "Data and Application",
and append the three suggest-dataset body lines; otherwise force `resource`,
`maintainer`, `url` to the empty string. -/
def variantStep (fv : String) (d : Submission) (body_parts : List String) :
    List String × Submission :=
  if fv = "suggest_dataset" then
    let d := if missingOrEmpty d.resource then { d with resource := some "N/A" } else d
    let d := if missingOrEmpty d.maintainer then { d with maintainer := some "N/A" } else d
    let d := if missingOrEmpty d.url then { d with url := some "N/A" } else d
    let d := if d.contact_type = some "Both" then
        { d with contact_type := some "Data and Application" } else d
    (body_parts ++
      ["  Title of Resource: " ++ d.resource.getD "",
       "  Who owns or maintains this resource? " ++ d.maintainer.getD "",
       "  Link: " ++ d.url.getD ""], d)
  else
    (body_parts, { d with resource := some "", maintainer := some "", url := some "" })

/-- Source lines 99-135: build the plain-text body parts and apply the
field-normalisation side effects on `data_dict`.  `fv` is the form variant
read (and defaulted) at lines 96-97; `content`, `name`, `email` are the
values indexed at lines 99-102. -/
def normalizeSubmission (fv : String) (d : Submission) (content name email : String) :
    List String × Submission :=
  let body_parts := [content ++ "\n", "Sent by:", "  Name: " ++ name, "  Email: " ++ email]
  let (body_parts, d) := pkgUrlStep d body_parts
  let (body_parts, d) := contactTypeStep d body_parts
  variantStep fv d body_parts

/-- A `data_dict[key]` index (raises `KeyError` when the key is absent). -/
def req (v : Option String) (key : String) : Except PyExn String :=
  match v with
  | some s => .ok s
  | none => .error (.keyError key)

/-- Source lines 168-175: default `contact_dest` to "data-hub-support" when
absent; when the destination is not "data-hub-support" and a non-empty
`pkg-id` is supplied, look the dataset up (`package_show`, which raises when
the id is unknown — modelled by `pkgShow` returning `none`) and, if its
`data_contact_email` is truthy, demote the default recipient to a `cc` header
and make the dataset contact the recipient. -/
def applyReroute (pkgShow : String → Option Pkg) (mail_dict : MailDict)
    (d : Submission) : Except PyExn (MailDict × Submission) :=
  let d := if d.contact_dest = none then { d with contact_dest := some "data-hub-support" } else d
  match d.contact_dest with
  | none => .error (.keyError "contact_dest")
  | some cd =>
    if cd != "data-hub-support" &&
        (match d.pkg_id with | some p => p != "" | none => false) then
      match d.pkg_id with
      | none => .error (.keyError "pkg-id")
      | some pid =>
        match pkgShow pid with
        | none => .error (.objectNotFound pid)
        | some pkg =>
          if pyTruthy pkg.data_contact_email then
            .ok ({ mail_dict with
                    headers := mail_dict.headers ++ [("cc", mail_dict.recipient_email)],
                    recipient_email := pkg.data_contact_email }, d)
          else .ok (mail_dict, d)
    else .ok (mail_dict, d)

/-- Source lines 96-175: the composition half of `submit`, run only when
validation and the CAPTCHA check pass.  Reads and defaults `form_variant`
(line 96 indexes the dict unguarded), normalises the submission while
building the body parts, assembles the `mail_dict` (lines 137-166) and
applies the recipient rerouting of lines 168-175.  `render` is the template
renderer, `siteUrl` the result of the home-index `toolkit.url_for` call, `now` the
formatted wall clock. -/
def composeMailDict (cfg : Config) (pkgShow : String → Option Pkg)
    (render : String → RenderArgs → String) (siteUrl now : String)
    (d : Submission) : Except PyExn (MailDict × Submission) := do
  let fv0 ← req d.form_variant "form_variant"
  let d := if fv0 = "" then { d with form_variant := some "contact" } else d
  let fv := if fv0 = "" then "contact" else fv0
  let content ← req d.content "content"
  let name ← req d.name "name"
  let email ← req d.email "email"
  let (body_parts, d) := normalizeSubmission fv d content name email
  let contact_type ← req d.contact_type "contact_type"
  let resource ← req d.resource "resource"
  let maintainer ← req d.maintainer "maintainer"
  let url ← req d.url "url"
  let pkgUrl ← req d.pkg_url "pkg-url"
  let subject ← match build_subject cfg now fv contact_type "Contact from visitor" false with
    | some s => Except.ok s
    | none => Except.error (.valueError "asbool")
  let mail_dict : MailDict := {
    recipient_email := (cfg "ckanext.contact.mail_to").or (cfg "email_to")
    recipient_name := (cfg "ckanext.contact.recipient_name").or (cfg "ckan.site_title")
    subject := subject
    body := String.intercalate "\n" body_parts
    body_html := render ("emails/" ++ fv ++ ".html")
      { name := name, email := email, contact_type := contact_type,
        resource := resource, maintainer := maintainer, url := url,
        pkg_url := pkgUrl, message := escape content, timestamp := now,
        site_title := cfg "ckan.site_title", site_url := siteUrl,
        subject := subject }
    headers := [("Reply-to", some email)] }
  applyReroute pkgShow mail_dict d

/-- `submit()` (source lines 74-192).  The request parsing of lines 85-87 is
the out-of-scope collaborator that produced `data_dict`.  `plugins` is the
ordered list of `IContact.mail_alter` hooks (lines 178-179), `mail` the
`mailer.mail_recipient` collaborator; `MailerException` and `socket.error`
are caught and recorded as `email_success = False` (lines 181-184). -/
def submit (cfg : Config) (captcha : Option String → Option String → Option String)
    (pkgShow : String → Option Pkg) (render : String → RenderArgs → String)
    (siteUrl : String) (plugins : List (MailDict → Submission → MailDict))
    (mail : MailDict → MailResult) (now : String) (data_dict : Submission) :
    Except PyExn Outcome :=
  match validate cfg captcha data_dict with
  | (errors, error_summary, recaptcha_error) =>
    if errors.length == 0 && recaptcha_error.isNone then
      match composeMailDict cfg pkgShow render siteUrl now data_dict with
      | .error e => .error e
      | .ok (mail_dict0, d2) =>
        let mail_dict := plugins.foldl (fun m p => p m d2) mail_dict0
        let email_success :=
          match mail mail_dict with
          | .ok => true
          | .mailerException => false
          | .socketError => false
        .ok { success := recaptcha_error.isNone && (errors.length == 0) && email_success,
              data := d2, errors := errors, error_summary := error_summary,
              recaptcha_error := recaptcha_error }
    else
      .ok { success := recaptcha_error.isNone && (errors.length == 0) && true,
            data := data_dict, errors := errors, error_summary := error_summary,
            recaptcha_error := recaptcha_error }

/-! Concrete fixtures used by the witness theorems: an empty configuration,
trivial collaborators, and small submissions exercising individual paths. -/

/-- An empty configuration: every key unset. -/
def cfg0 : Config := fun _ => none

/-- A CAPTCHA collaborator that always succeeds. -/
def captcha0 : Option String → Option String → Option String := fun _ _ => none

/-- A CAPTCHA collaborator that always raises a RecaptchaError with a reason. -/
def captchaFail : Option String → Option String → Option String :=
  fun _ _ => some "score below threshold"

/-- A dataset lookup that knows no datasets. -/
def pkgShow0 : String → Option Pkg := fun _ => none

/-- A template renderer returning the empty markup string. -/
def render0 : String → RenderArgs → String := fun _ _ => ""

/-- A submission with a missing email field. -/
def dMissing : Submission := { name := some "A", content := some "Hi" }

/-- A complete minimal submission whose form variant is the empty string. -/
def d5 : Submission :=
  { email := some "a@b.com", name := some "A", content := some "Hi", form_variant := some "" }

/-- A complete submission with no form_variant key at all. -/
def d10 : Submission :=
  { email := some "a@b.com", name := some "A", content := some "Hi" }

/-- A complete submission for the validate-with-CAPTCHA-failure witness. -/
def d4 : Submission :=
  { email := some "a@b.com", name := some "A", content := some "Hi" }

/-- The mail dict composed from `d5` under `cfg0`/`render0`. -/
def m5 : MailDict :=
  { recipient_email := none, recipient_name := none,
    subject := "Contact from visitor : Question",
    body := "Hi\n\nSent by:\n  Name: A\n  Email: a@b.com\n  Contact Type: Question",
    body_html := "", headers := [("Reply-to", some "a@b.com")] }

/-- The normalised form of `d5` produced during composition. -/
def d5n : Submission :=
  { email := some "a@b.com", name := some "A", content := some "Hi",
    form_variant := some "contact", contact_type := some "Question",
    pkg_url := some "", resource := some "", maintainer := some "",
    url := some "", contact_dest := some "data-hub-support" }

/-- A configuration that sets the subject key under the two spellings named
by the specification (with and without the implicit ckanext prefix) while
leaving the key the code actually reads unset. -/
def cfgC7 : Config := fun k =>
  if k = "contact.suggest_dataset.subject" then some "Configured A"
  else if k = "ckanext.contact.suggest_dataset.subject" then some "Configured B"
  else none

/-- A configuration with only the default recipient address set. -/
def cfgW : Config := fun k =>
  if k = "ckanext.contact.mail_to" then some "default@hub.org" else none

/-- A dataset lookup exposing one dataset with a data-contact email. -/
def pkgShowW : String → Option Pkg :=
  fun i => if i = "p1" then some { data_contact_email := some "owner@example.org" } else none

/-- A submission addressed away from data-hub-support with a dataset id. -/
def dW : Submission :=
  { email := some "a@b.com", name := some "A", content := some "Hi",
    form_variant := some "contact", contact_dest := some "package-contact",
    pkg_id := some "p1" }

/-! Helper lemmas: reduction of the Except monad, closed forms for the three
normalisation steps, and a decomposition of `composeMailDict` into the
mail-dict construction followed by `applyReroute`. -/

theorem exbind_ok {A B : Type} (a : A) (f : A → Except PyExn B) :
    (Except.ok a >>= f) = f a := rfl

theorem exbind_err {A B : Type} (x : PyExn) (f : A → Except PyExn B) :
    ((Except.error x : Except PyExn A) >>= f) = Except.error x := rfl

theorem pkgUrlStep_eq (d : Submission) (p : List String) :
    pkgUrlStep d p =
      (p ++ (if missingOrEmpty d.pkg_url then [] else ["  Dataset URL: " ++ d.pkg_url.getD ""]),
       { d with pkg_url := if missingOrEmpty d.pkg_url then some "" else d.pkg_url }) := by
  rcases d with ⟨em, nm, co, fvar, cty, pu, pid, res, mnt, u, cd, gr⟩
  rcases pu with _ | pus
  · simp [pkgUrlStep, missingOrEmpty]
  · by_cases h : pus = "" <;> simp [pkgUrlStep, missingOrEmpty, h]

theorem contactTypeStep_eq (d : Submission) (p : List String) :
    contactTypeStep d p =
      (p ++ (if missingOrEmpty d.contact_type then ["  Contact Type: Question"] else []),
       { d with contact_type := if missingOrEmpty d.contact_type then some "Question" else d.contact_type }) := by
  rcases d with ⟨em, nm, co, fvar, cty, pu, pid, res, mnt, u, cd, gr⟩
  cases h : missingOrEmpty cty <;> simp [contactTypeStep, h]

theorem variantStep_eq (fv : String) (d : Submission) (p : List String) :
    variantStep fv d p =
      (p ++ (if fv = "suggest_dataset" then
              ["  Title of Resource: " ++ (if missingOrEmpty d.resource then "N/A" else d.resource.getD ""),
               "  Who owns or maintains this resource? " ++ (if missingOrEmpty d.maintainer then "N/A" else d.maintainer.getD ""),
               "  Link: " ++ (if missingOrEmpty d.url then "N/A" else d.url.getD "")]
             else []),
       { d with
          resource := if fv = "suggest_dataset" then (if missingOrEmpty d.resource then some "N/A" else d.resource) else some "",
          maintainer := if fv = "suggest_dataset" then (if missingOrEmpty d.maintainer then some "N/A" else d.maintainer) else some "",
          url := if fv = "suggest_dataset" then (if missingOrEmpty d.url then some "N/A" else d.url) else some "",
          contact_type := if fv = "suggest_dataset" ∧ d.contact_type = some "Both" then some "Data and Application" else d.contact_type }) := by
  rcases d with ⟨em, nm, co, fvar, cty, pu, pid, res, mnt, u, cd, gr⟩
  by_cases hfv : fv = "suggest_dataset"
  · simp only [variantStep, hfv, if_true, if_pos, true_and]
    cases h1 : missingOrEmpty res <;> cases h2 : missingOrEmpty mnt <;> cases h3 : missingOrEmpty u <;>
      by_cases h4 : cty = some "Both" <;>
      simp_all [missingOrEmpty]
  · simp [variantStep, hfv]

theorem normalizeSubmission_eq (fv : String) (d : Submission) (c n e : String) :
  normalizeSubmission fv d c n e =
    ([c ++ "\n", "Sent by:", "  Name: " ++ n, "  Email: " ++ e]
       ++ (if missingOrEmpty d.pkg_url then [] else ["  Dataset URL: " ++ d.pkg_url.getD ""])
       ++ (if missingOrEmpty d.contact_type then ["  Contact Type: Question"] else [])
       ++ (if fv = "suggest_dataset" then
             ["  Title of Resource: " ++ (if missingOrEmpty d.resource then "N/A" else d.resource.getD ""),
              "  Who owns or maintains this resource? " ++ (if missingOrEmpty d.maintainer then "N/A" else d.maintainer.getD ""),
              "  Link: " ++ (if missingOrEmpty d.url then "N/A" else d.url.getD "")]
           else []),
     { d with
        pkg_url := if missingOrEmpty d.pkg_url then some "" else d.pkg_url,
        contact_type :=
          if missingOrEmpty d.contact_type then some "Question"
          else if fv = "suggest_dataset" ∧ d.contact_type = some "Both" then some "Data and Application"
          else d.contact_type,
        resource := if fv = "suggest_dataset" then (if missingOrEmpty d.resource then some "N/A" else d.resource) else some "",
        maintainer := if fv = "suggest_dataset" then (if missingOrEmpty d.maintainer then some "N/A" else d.maintainer) else some "",
        url := if fv = "suggest_dataset" then (if missingOrEmpty d.url then some "N/A" else d.url) else some "" }) := by
  rcases d with ⟨em, nm, co, fvar, cty, pu, pid, res, mnt, u, cd, gr⟩
  unfold normalizeSubmission
  simp only [pkgUrlStep_eq, contactTypeStep_eq, variantStep_eq, List.append_assoc]
  cases h : missingOrEmpty cty <;> simp [h]

theorem composeMailDict_unfold (cfg : Config) (pkgShow : String → Option Pkg)
    (render : String → RenderArgs → String) (siteUrl now : String)
    (d : Submission) (fv c n e : String) (parts : List String) (d2 : Submission)
    (ct r mt u pu subj : String)
    (hfv : d.form_variant = some fv)
    (hc : d.content = some c) (hn : d.name = some n) (he : d.email = some e)
    (hnorm : normalizeSubmission (if fv = "" then "contact" else fv)
              (if fv = "" then { d with form_variant := some "contact" } else d) c n e = (parts, d2))
    (hct : d2.contact_type = some ct) (hr : d2.resource = some r)
    (hmt : d2.maintainer = some mt) (hu : d2.url = some u) (hpu : d2.pkg_url = some pu)
    (hsub : build_subject cfg now (if fv = "" then "contact" else fv) ct "Contact from visitor" false = some subj) :
    composeMailDict cfg pkgShow render siteUrl now d =
      applyReroute pkgShow
        { recipient_email := (cfg "ckanext.contact.mail_to").or (cfg "email_to"),
          recipient_name := (cfg "ckanext.contact.recipient_name").or (cfg "ckan.site_title"),
          subject := subj,
          body := String.intercalate "\n" parts,
          body_html := render ("emails/" ++ (if fv = "" then "contact" else fv) ++ ".html")
            { name := n, email := e, contact_type := ct, resource := r, maintainer := mt,
              url := u, pkg_url := pu, message := escape c, timestamp := now,
              site_title := cfg "ckan.site_title", site_url := siteUrl, subject := subj },
          headers := [("Reply-to", some e)] } d2 := by
  by_cases h0 : fv = ""
  · simp only [h0, reduceIte] at hnorm
    simp only [composeMailDict, hfv, h0, req, exbind_ok, reduceIte]
    simp only [hc, hn, he] at hnorm
    simp only [hc, hn, he, exbind_ok]
    simp only [hnorm, hct, hr, hmt, hu, hpu, exbind_ok]
    simp only [h0, reduceIte] at hsub
    simp only [hsub, exbind_ok]
  · simp only [h0, reduceIte] at hnorm hsub
    simp only [composeMailDict, hfv, h0, req, exbind_ok, reduceIte]
    simp only [hc, hn, he, exbind_ok]
    simp only [hnorm, hct, hr, hmt, hu, hpu, exbind_ok]
    simp only [hsub, exbind_ok]

theorem applyReroute_of_hub (pkgShow : String → Option Pkg) (m : MailDict) (d : Submission)
    (h : ∀ cd, d.contact_dest = some cd → cd = "data-hub-support") :
    applyReroute pkgShow m d =
      .ok (m, if d.contact_dest = none then { d with contact_dest := some "data-hub-support" } else d) := by
  rcases hcd : d.contact_dest with _ | cd
  · simp [applyReroute, hcd]
  · have := h cd hcd
    subst this
    simp [applyReroute, hcd]

theorem applyReroute_of_empty_pkg (pkgShow : String → Option Pkg) (m : MailDict) (d : Submission)
    (h : ∀ pid, d.pkg_id = some pid → pid = "") :
    applyReroute pkgShow m d =
      .ok (m, if d.contact_dest = none then { d with contact_dest := some "data-hub-support" } else d) := by
  rcases hcd : d.contact_dest with _ | cd
  · rcases hp : d.pkg_id with _ | pid
    · simp [applyReroute, hcd, hp]
    · have := h pid hp
      subst this
      simp [applyReroute, hcd, hp]
  · rcases hp : d.pkg_id with _ | pid
    · simp [applyReroute, hcd, hp]
    · have := h pid hp
      subst this
      simp [applyReroute, hcd, hp]

theorem applyReroute_of_reroute (pkgShow : String → Option Pkg) (m : MailDict) (d : Submission)
    (cd pid : String) (pkg : Pkg)
    (hcd : d.contact_dest = some cd) (hcdne : cd ≠ "data-hub-support")
    (hp : d.pkg_id = some pid) (hpne : pid ≠ "")
    (hshow : pkgShow pid = some pkg) (htr : pyTruthy pkg.data_contact_email = true) :
    applyReroute pkgShow m d =
      .ok ({ m with headers := m.headers ++ [("cc", m.recipient_email)],
                    recipient_email := pkg.data_contact_email }, d) := by
  simp [applyReroute, hcd, hp, hshow, hcdne, hpne, htr]

theorem applyReroute_of_falsy_email (pkgShow : String → Option Pkg) (m : MailDict) (d : Submission)
    (cd pid : String) (pkg : Pkg)
    (hcd : d.contact_dest = some cd)
    (hp : d.pkg_id = some pid)
    (hshow : pkgShow pid = some pkg) (htr : pyTruthy pkg.data_contact_email = false) :
    applyReroute pkgShow m d = .ok (m, d) := by
  by_cases hcdne : cd = "data-hub-support"
  · subst hcdne; simp [applyReroute, hcd, hp]
  · by_cases hpne : pid = ""
    · subst hpne; simp [applyReroute, hcd, hp]
    · simp [applyReroute, hcd, hp, hshow, hcdne, hpne, htr]

theorem normalize_fields (fv : String) (d : Submission) (c n e : String) :
    (∃ ct, (normalizeSubmission fv d c n e).2.contact_type = some ct) ∧
    (∃ r, (normalizeSubmission fv d c n e).2.resource = some r) ∧
    (∃ mt, (normalizeSubmission fv d c n e).2.maintainer = some mt) ∧
    (∃ u, (normalizeSubmission fv d c n e).2.url = some u) ∧
    (∃ pu, (normalizeSubmission fv d c n e).2.pkg_url = some pu) ∧
    (normalizeSubmission fv d c n e).2.contact_dest = d.contact_dest ∧
    (normalizeSubmission fv d c n e).2.pkg_id = d.pkg_id ∧
    (normalizeSubmission fv d c n e).2.form_variant = d.form_variant := by
  rw [normalizeSubmission_eq]
  refine ⟨?_, ?_, ?_, ?_, ?_, rfl, rfl, rfl⟩ <;>
    rcases hct : d.contact_type with _ | s <;>
    rcases hr : d.resource with _ | r <;>
    rcases hmt : d.maintainer with _ | mt <;>
    rcases hu : d.url with _ | u <;>
    rcases hpu : d.pkg_url with _ | pu <;>
    simp [missingOrEmpty] <;> split_ifs <;> simp

theorem build_subject_isSome (cfg : Config) (now fv ct sd : String) (td b : Bool)
    (h : resolveTimestampFlag cfg td = some b) :
    ∃ s, build_subject cfg now fv ct sd td = some s := by
  simp [build_subject, h]

theorem composeMailDict_to_applyReroute (cfg : Config) (pkgShow : String → Option Pkg)
    (render : String → RenderArgs → String) (siteUrl now : String)
    (d : Submission) (fv c n e : String) (b : Bool)
    (hfv : d.form_variant = some fv) (hc : d.content = some c)
    (hn : d.name = some n) (he : d.email = some e)
    (hb : resolveTimestampFlag cfg false = some b) :
    ∃ m d2, composeMailDict cfg pkgShow render siteUrl now d = applyReroute pkgShow m d2 ∧
      m.recipient_email = (cfg "ckanext.contact.mail_to").or (cfg "email_to") ∧
      m.headers = [("Reply-to", some e)] ∧
      d2.contact_dest = d.contact_dest ∧ d2.pkg_id = d.pkg_id := by
  set fv' := if fv = "" then "contact" else fv with hfv'
  set d' := if fv = "" then { d with form_variant := some "contact" } else d with hd'
  obtain ⟨parts, d2, hnorm⟩ : ∃ p d2, normalizeSubmission fv' d' c n e = (p, d2) :=
    ⟨(normalizeSubmission fv' d' c n e).1, (normalizeSubmission fv' d' c n e).2, rfl⟩
  have hfields := normalize_fields fv' d' c n e
  rw [hnorm] at hfields
  obtain ⟨⟨ct, hct⟩, ⟨r, hr⟩, ⟨mt, hmt⟩, ⟨u, hu⟩, ⟨pu, hpu⟩, hcd, hpid, -⟩ := hfields
  obtain ⟨subj, hsub⟩ := build_subject_isSome cfg now fv' ct "Contact from visitor" false b hb
  have hunf := composeMailDict_unfold cfg pkgShow render siteUrl now d fv c n e parts d2
    ct r mt u pu subj hfv hc hn he hnorm hct hr hmt hu hpu hsub
  refine ⟨_, d2, hunf, rfl, rfl, ?_, ?_⟩
  · rw [hcd, hd']
    by_cases h0 : fv = "" <;> simp [h0]
  · rw [hpid, hd']
    by_cases h0 : fv = "" <;> simp [h0]

/-- C1: a submission in which any of the email, name or content fields is
absent or empty makes submit return an outcome whose errors map holds exactly
the missing fields, each mapped to the Missing Value message, with
recaptcha_error equal to none and success false.  The statement holds for
every CAPTCHA collaborator and every mailer, and its right-hand side mentions
neither, so the CAPTCHA check is skipped and no mail delivery is attempted on
this path. -/
theorem C1_missing_required_fields (cfg : Config)
    (captcha : Option String → Option String → Option String)
    (pkgShow : String → Option Pkg) (render : String → RenderArgs → String)
    (siteUrl : String) (plugins : List (MailDict → Submission → MailDict))
    (mail : MailDict → MailResult) (now : String) (d : Submission)
    (h : missingFields d ≠ []) :
    submit cfg captcha pkgShow render siteUrl plugins mail now d =
      .ok { success := false, data := d,
            errors := (missingFields d).map (fun f => (f, ["Missing Value"])),
            error_summary := (missingFields d).map (fun f => (f, "Missing value")),
            recaptcha_error := none } := by
  cases hm : missingFields d with
  | nil => exact absurd hm h
  | cons a t => simp [submit, validate, hm]

/-- Witness for C1 at a concrete submission missing its email field. -/
theorem C1_witness :
    submit cfg0 captcha0 pkgShow0 render0 "site" [] (fun _ => .ok) "now" dMissing =
      .ok { success := false, data := dMissing,
            errors := [("email", ["Missing Value"])],
            error_summary := [("email", "Missing value")],
            recaptcha_error := none } :=
  C1_missing_required_fields cfg0 captcha0 pkgShow0 render0 "site" [] (fun _ => .ok)
    "now" dMissing (by decide)

/-- C2: for a submission that reaches composition (required fields present,
timestamp flag resolvable), if contact_dest is present and differs from
data-hub-support and a non-empty pkg-id names a dataset whose data-contact
email is non-empty, the composed message has that email as its sole
recipient_email and a cc header equal to the configured default recipient;
in the remaining cases (destination absent or data-hub-support, pkg-id
absent or empty, or dataset contact email falsy) the recipient stays the
configured default and no cc header is added. -/
theorem C2_recipient_rerouting (cfg : Config) (pkgShow : String → Option Pkg)
    (render : String → RenderArgs → String) (siteUrl now : String)
    (d : Submission) (fv c n e : String) (b : Bool)
    (hfv : d.form_variant = some fv) (hc : d.content = some c)
    (hn : d.name = some n) (he : d.email = some e)
    (hb : resolveTimestampFlag cfg false = some b) :
    (∀ cd pid pkg pe, d.contact_dest = some cd → cd ≠ "data-hub-support" →
       d.pkg_id = some pid → pid ≠ "" → pkgShow pid = some pkg →
       pkg.data_contact_email = some pe → pe ≠ "" →
       ∃ m d2, composeMailDict cfg pkgShow render siteUrl now d = .ok (m, d2) ∧
         m.recipient_email = some pe ∧
         m.headers.lookup "cc" = some ((cfg "ckanext.contact.mail_to").or (cfg "email_to")) ∧
         m.headers.lookup "Reply-to" = some (some e))
    ∧ (((∀ cd, d.contact_dest = some cd → cd = "data-hub-support") ∨
        (∀ pid, d.pkg_id = some pid → pid = "") ∨
        (∃ cd pid pkg, d.contact_dest = some cd ∧ d.pkg_id = some pid ∧
           pkgShow pid = some pkg ∧ pyTruthy pkg.data_contact_email = false)) →
       ∃ m d2, composeMailDict cfg pkgShow render siteUrl now d = .ok (m, d2) ∧
         m.recipient_email = (cfg "ckanext.contact.mail_to").or (cfg "email_to") ∧
         m.headers.lookup "cc" = none) := by
  obtain ⟨m, d2, heq, hrec, hhead, hcd2, hpid2⟩ :=
    composeMailDict_to_applyReroute cfg pkgShow render siteUrl now d fv c n e b hfv hc hn he hb
  constructor
  · intro cd pid pkg pe hcd hcdne hpid hpidne hshow hpe hpene
    have hre := applyReroute_of_reroute pkgShow m d2 cd pid pkg
      (by rw [hcd2, hcd]) hcdne (by rw [hpid2, hpid]) hpidne hshow
      (by simp [pyTruthy, hpe, hpene])
    refine ⟨_, d2, by rw [heq, hre], ?_, ?_, ?_⟩
    · simp [hpe]
    · simp [hhead, hrec, List.lookup]
    · simp [hhead, List.lookup]
  · intro hcase
    rcases hcase with hhub | hempty | ⟨cd, pid, pkg, hcd, hpid, hshow, hfalsy⟩
    · have hre := applyReroute_of_hub pkgShow m d2 (fun cd hcd => hhub cd (by rw [← hcd2]; exact hcd))
      exact ⟨m, _, by rw [heq, hre], hrec, by simp [hhead, List.lookup]⟩
    · have hre := applyReroute_of_empty_pkg pkgShow m d2 (fun pid hp => hempty pid (by rw [← hpid2]; exact hp))
      exact ⟨m, _, by rw [heq, hre], hrec, by simp [hhead, List.lookup]⟩
    · have hre := applyReroute_of_falsy_email pkgShow m d2 cd pid pkg
        (by rw [hcd2, hcd]) (by rw [hpid2, hpid]) hshow hfalsy
      exact ⟨m, d2, by rw [heq, hre], hrec, by simp [hhead, List.lookup]⟩

/-- Witness for C2: a concrete rerouted submission whose dataset contact
becomes the recipient while the configured default is demoted to cc. -/
theorem C2_witness :
    ∃ m d2, composeMailDict cfgW pkgShowW render0 "site" "now" dW = .ok (m, d2) ∧
      m.recipient_email = some "owner@example.org" ∧
      m.headers.lookup "cc" = some (some "default@hub.org") ∧
      m.headers.lookup "Reply-to" = some (some "a@b.com") :=
  (C2_recipient_rerouting cfgW pkgShowW render0 "site" "now" dW "contact" "Hi" "A"
      "a@b.com" false rfl rfl rfl rfl rfl).1
    "package-contact" "p1" { data_contact_email := some "owner@example.org" }
    "owner@example.org" rfl (by decide) rfl (by decide) rfl rfl (by decide)

/-- C3: the form-variant branch of the composer normalises the submission
record as follows.  When the variant is suggest_dataset, each of resource,
maintainer and url that is absent or empty is set to N/A (present non-empty
values are kept), and a contact_type equal to Both is rewritten to the
display string Data and Application; for every other variant the three
fields are forced to the empty string. -/
theorem C3_variant_field_normalization (fv : String) (d : Submission) (body_parts : List String) :
    (variantStep fv d body_parts).2 =
      { d with
         resource := if fv = "suggest_dataset"
           then (if missingOrEmpty d.resource then some "N/A" else d.resource) else some "",
         maintainer := if fv = "suggest_dataset"
           then (if missingOrEmpty d.maintainer then some "N/A" else d.maintainer) else some "",
         url := if fv = "suggest_dataset"
           then (if missingOrEmpty d.url then some "N/A" else d.url) else some "",
         contact_type := if fv = "suggest_dataset" ∧ d.contact_type = some "Both"
           then some "Data and Application" else d.contact_type } := by
  rw [variantStep_eq]

/-- C4: when all three required fields are present and non-empty and the
CAPTCHA collaborator raises a RecaptchaError with any reason whatsoever,
validate returns empty errors, empty error summary and the fixed message
"Recaptcha check failed, please try again."; the result is the same for
every reason, so the underlying failure reason is not exposed. -/
theorem C4_recaptcha_fixed_message (cfg : Config)
    (captcha : Option String → Option String → Option String)
    (d : Submission) (e n c reason : String)
    (he : d.email = some e) (hene : e ≠ "")
    (hn : d.name = some n) (hnne : n ≠ "")
    (hc : d.content = some c) (hcne : c ≠ "")
    (hcap : captcha d.g_recaptcha_response (cfg "ckanext.contact.recaptcha_v3_action") = some reason) :
    validate cfg captcha d = ([], [], some "Recaptcha check failed, please try again.") := by
  have h1 : (e == "") = false := beq_eq_false_iff_ne.mpr hene
  have h2 : (n == "") = false := beq_eq_false_iff_ne.mpr hnne
  have h3 : (c == "") = false := beq_eq_false_iff_ne.mpr hcne
  have hmiss : missingFields d = [] := by
    simp [missingFields, Submission.get, missingOrEmpty, he, hn, hc, h1, h2, h3, List.filter]
  simp [validate, hmiss, hcap]

/-- Witness for C4 on a concrete complete submission and a collaborator
that always fails with a reason. -/
theorem C4_witness :
    validate cfg0 captchaFail d4 =
      ([], [], some "Recaptcha check failed, please try again.") :=
  C4_recaptcha_fixed_message cfg0 captchaFail d4 "a@b.com" "A" "Hi" "score below threshold"
    rfl (by decide) rfl (by decide) rfl (by decide) rfl

/-- C5: on a submission that passes validation and the CAPTCHA check and is
composed successfully, a mailer collaborator that raises a MailerException
or a socket error makes submit return success false with empty errors and no
recaptcha error; the exception does not propagate (the result is an ok
outcome) and the single mailer call is not retried. -/
theorem C5_delivery_failure_caught (cfg : Config)
    (captcha : Option String → Option String → Option String)
    (pkgShow : String → Option Pkg) (render : String → RenderArgs → String)
    (siteUrl : String) (plugins : List (MailDict → Submission → MailDict))
    (mail : MailDict → MailResult) (now : String) (d : Submission)
    (m : MailDict) (d2 : Submission)
    (hmiss : missingFields d = [])
    (hcap : captcha d.g_recaptcha_response (cfg "ckanext.contact.recaptcha_v3_action") = none)
    (hcomp : composeMailDict cfg pkgShow render siteUrl now d = .ok (m, d2))
    (hmail : mail (plugins.foldl (fun acc p => p acc d2) m) = .mailerException ∨
             mail (plugins.foldl (fun acc p => p acc d2) m) = .socketError) :
    submit cfg captcha pkgShow render siteUrl plugins mail now d =
      .ok { success := false, data := d2, errors := [], error_summary := [],
            recaptcha_error := none } := by
  rcases hmail with hmail | hmail <;> simp [submit, validate, hmiss, hcap, hcomp, hmail]

/-- Witness for C5: a concrete valid submission whose mailer raises. -/
theorem C5_witness :
    submit cfg0 captcha0 pkgShow0 render0 "site" [] (fun _ => .mailerException) "now" d5 =
      .ok { success := false, data := d5n, errors := [], error_summary := [],
            recaptcha_error := none } :=
  C5_delivery_failure_caught cfg0 captcha0 pkgShow0 render0 "site" []
    (fun _ => .mailerException) "now" d5 m5 d5n rfl rfl rfl (Or.inl rfl)

/-- C6: when the timestamp flag resolves to a boolean, the subject equals
the configured (or default) subject template, with the contact-type suffix
appended exactly when the form variant is contact (so never for
suggest_dataset), and the bracketed timestamp appended exactly when the
resolved add-timestamp flag is true. -/
theorem C6_subject_suffixes (cfg : Config) (now fv ct sd : String) (td b : Bool)
    (hb : resolveTimestampFlag cfg td = some b) :
    build_subject cfg now fv ct sd td =
      some ((cfg ("ckanext." ++ fv ++ ".subject")).getD sd
            ++ (if fv = "contact" then " : " ++ ct else "")
            ++ (if b then " [" ++ now ++ "]" else "")) := by
  by_cases hcon : fv = "contact" <;> cases b <;>
    simp [build_subject, hb, hcon, String.append_assoc]

/-- Witness for C6 with an empty configuration: the contact variant gets
the contact-type suffix and no timestamp. -/
theorem C6_witness :
    build_subject cfg0 "now" "contact" "Issue" "Contact from visitor" false =
      some "Contact from visitor : Issue" :=
  C6_subject_suffixes cfg0 "now" "contact" "Issue" "Contact from visitor" false false rfl

/-- C7 counterexample: the code reads configuration key
ckanext.suggest_dataset.subject, not a contact-prefixed per-variant key.
With both spellings of the key named by the specification set and the key
the code reads unset, build_subject falls back to the supplied default, so
the claim that the subject template is read from contact.<variant>.subject
is false. -/
theorem C7_counterexample :
    build_subject cfgC7 "2026-01-01 00:00:00 UTC" "suggest_dataset" "Question"
        "Suggest a dataset" false = some "Suggest a dataset" ∧
    cfgC7 "contact.suggest_dataset.subject" = some "Configured A" ∧
    cfgC7 "ckanext.contact.suggest_dataset.subject" = some "Configured B" ∧
    cfgC7 "ckanext.suggest_dataset.subject" = none := by
  refine ⟨?_, ?_, ?_, ?_⟩ <;> rfl

/-- C7 amended: build_subject reads the per-variant subject template from
configuration key ckanext.<variant>.subject (so, dropping the implicit
ckanext prefix used by the configuration contract, <variant>.subject rather
than contact.<variant>.subject), using the configured value when the key is
set and falling back to the supplied subject_default when it is unset. -/
theorem C7_amended_subject_key (cfg : Config) (now fv ct sd : String) (td b : Bool)
    (hb : resolveTimestampFlag cfg td = some b) :
    (∀ s, cfg ("ckanext." ++ fv ++ ".subject") = some s →
       build_subject cfg now fv ct sd td =
         some (s ++ (if fv = "contact" then " : " ++ ct else "")
               ++ (if b then " [" ++ now ++ "]" else ""))) ∧
    (cfg ("ckanext." ++ fv ++ ".subject") = none →
       build_subject cfg now fv ct sd td =
         some (sd ++ (if fv = "contact" then " : " ++ ct else "")
               ++ (if b then " [" ++ now ++ "]" else ""))) := by
  constructor
  · intro s hk
    by_cases hcon : fv = "contact"
    · subst hcon
      have hk2 : cfg "ckanext.contact.subject" = some s := by simpa using hk
      cases b <;> simp [build_subject, hb, hk2, String.append_assoc]
    · have hk2 : cfg ("ckanext." ++ (fv ++ ".subject")) = some s := by
        rw [← String.append_assoc]; exact hk
      cases b <;> simp [build_subject, hb, hk2, hcon, String.append_assoc]
  · intro hk
    by_cases hcon : fv = "contact"
    · subst hcon
      have hk2 : cfg "ckanext.contact.subject" = none := by simpa using hk
      cases b <;> simp [build_subject, hb, hk2, String.append_assoc]
    · have hk2 : cfg ("ckanext." ++ (fv ++ ".subject")) = none := by
        rw [← String.append_assoc]; exact hk
      cases b <;> simp [build_subject, hb, hk2, hcon, String.append_assoc]

/-- Witness for the amended C7: under the counterexample configuration the
contact variant also falls back to its supplied default, since only the
spec-named keys are set and the code-read key is unset. -/
theorem C7_witness :
    build_subject cfgC7 "now" "contact" "Question" "Contact from visitor" false =
      some "Contact from visitor : Question" :=
  (C7_amended_subject_key cfgC7 "now" "contact" "Question" "Contact from visitor"
      false false rfl).2 rfl

/-- C8: the composer sets contact_type to Question exactly when the incoming
contact_type is absent or empty (otherwise keeping it, up to the
suggest-dataset rewrite of Both), and the plain-text body parts contain the
Contact Type line exactly in the absent-or-empty case: the line never
appears when a non-empty contact_type was supplied. -/
theorem C8_contact_type_default_line (fv : String) (d : Submission) (c n e : String) :
    (normalizeSubmission fv d c n e).2.contact_type =
      (if missingOrEmpty d.contact_type then some "Question"
       else if fv = "suggest_dataset" ∧ d.contact_type = some "Both" then some "Data and Application"
       else d.contact_type) ∧
    (normalizeSubmission fv d c n e).1 =
      [c ++ "\n", "Sent by:", "  Name: " ++ n, "  Email: " ++ e]
        ++ (if missingOrEmpty d.pkg_url then [] else ["  Dataset URL: " ++ d.pkg_url.getD ""])
        ++ (if missingOrEmpty d.contact_type then ["  Contact Type: Question"] else [])
        ++ (if fv = "suggest_dataset" then
              ["  Title of Resource: " ++ (if missingOrEmpty d.resource then "N/A" else d.resource.getD ""),
               "  Who owns or maintains this resource? " ++ (if missingOrEmpty d.maintainer then "N/A" else d.maintainer.getD ""),
               "  Link: " ++ (if missingOrEmpty d.url then "N/A" else d.url.getD "")]
            else []) := by
  rw [normalizeSubmission_eq]
  exact ⟨rfl, rfl⟩

/-- C9: with the add-timestamp flag resolving to false, build_subject does
not depend on the wall clock, so two calls with identical arguments and
identical configuration return identical subjects. -/
theorem C9_no_timestamp_deterministic (cfg : Config) (fv ct sd : String) (td : Bool)
    (now1 now2 : String)
    (hb : resolveTimestampFlag cfg td = some false) :
    build_subject cfg now1 fv ct sd td = build_subject cfg now2 fv ct sd td := by
  simp [build_subject, hb]

/-- Witness for C9 at two different clock readings. -/
theorem C9_witness :
    build_subject cfg0 "2026-01-01 00:00:00 UTC" "contact" "Question" "Contact from visitor" false =
      build_subject cfg0 "2026-01-02 11:22:33 UTC" "contact" "Question" "Contact from visitor" false :=
  C9_no_timestamp_deterministic cfg0 "contact" "Question" "Contact from visitor" false
    "2026-01-01 00:00:00 UTC" "2026-01-02 11:22:33 UTC" rfl

/-- C10: a submission whose required fields are present and non-empty and
whose CAPTCHA check passes, but whose form data has no form_variant key at
all, makes submit raise a KeyError from the unguarded index instead of
returning an outcome; the empty-string default of the variant applies only
when the key is present with an empty value. -/
theorem C10_absent_form_variant_raises (cfg : Config)
    (captcha : Option String → Option String → Option String)
    (pkgShow : String → Option Pkg) (render : String → RenderArgs → String)
    (siteUrl : String) (plugins : List (MailDict → Submission → MailDict))
    (mail : MailDict → MailResult) (now : String) (d : Submission)
    (hmiss : missingFields d = [])
    (hcap : captcha d.g_recaptcha_response (cfg "ckanext.contact.recaptcha_v3_action") = none)
    (hfv : d.form_variant = none) :
    submit cfg captcha pkgShow render siteUrl plugins mail now d =
      .error (.keyError "form_variant") := by
  simp [submit, validate, hmiss, hcap, composeMailDict, req, hfv, exbind_err]

/-- Witness for C10 on a concrete complete submission with no form_variant
key. -/
theorem C10_witness :
    submit cfg0 captcha0 pkgShow0 render0 "site" [] (fun _ => .ok) "now" d10 =
      .error (.keyError "form_variant") :=
  C10_absent_form_variant_raises cfg0 captcha0 pkgShow0 render0 "site" [] (fun _ => .ok)
    "now" d10 rfl rfl rfl
